import Mathlib

/-!
Shallow embedding of the sitemap-generation subsystem of the TVSHOWup
repository, covering the server-side edge function
(`supabase/functions/generate-sitemaps/index.ts`) and the browser-side
module (`src/lib/sitemap.ts`).

Modelling conventions:
* JavaScript numbers are modelled as rationals (`ℚ`); dates as integer
  timestamps (`ℤ`), so `new Date(a) > new Date(b)` becomes `a > b`.
* A field whose runtime value may be `null`/`undefined` is an `Option`;
  JavaScript truthiness of a string field is `Option.isSome` together
  with a non-emptiness test where the code tests truthiness of a string.
* The ambient clock and `Date` rendering library are passed in as an
  explicit environment (`Env`): `sixMonthsAgo` / `threeMonthsAgo` are the
  timestamps the code computes from `new Date()` with `setMonth`, `today`
  is `new Date().toISOString().split('T')[0]`, and `isoDate` / `yearOf`
  are the rendering functions applied to stored timestamps.
-/

namespace TVShowUp

/-- A movie row as consumed by the priority/changefreq functions:
`popularity`, `vote_average` may be null (the code coerces with
`Number(x) || 0`), `release_date` may be null/empty (falsy ⇒ `none`). -/
structure MovieItem where
  popularity : Option ℚ
  vote_average : Option ℚ
  release_date : Option ℤ
  deriving DecidableEq

/-- A TV-show row as consumed by the priority/changefreq functions. -/
structure TVItem where
  popularity : Option ℚ
  vote_average : Option ℚ
  first_air_date : Option ℤ
  in_production : Bool
  deriving DecidableEq

/-- The `Movie | TVShow` union type both implementations take. -/
inductive Item where
  | movie (m : MovieItem)
  | tv (t : TVItem)
  deriving DecidableEq

def Item.popularityField : Item → Option ℚ
  | .movie m => m.popularity
  | .tv t => t.popularity

def Item.voteAverageField : Item → Option ℚ
  | .movie m => m.vote_average
  | .tv t => t.vote_average

/-- Server side, `index.ts:144`:
`'release_date' in item ? item.release_date : item.first_air_date`.
A movie row carries `release_date`, a TV row does not. -/
def Item.primaryDate : Item → Option ℤ
  | .movie m => m.release_date
  | .tv t => t.first_air_date

/-- Server side, `index.ts:158`: `'in_production' in item && item.in_production`.
Only TV rows carry the key. -/
def Item.inProductionFlag : Item → Bool
  | .movie _ => false
  | .tv t => t.in_production

/-- Server-side `calculatePriority` (index.ts:123-155).
`sixMonthsAgo` is the timestamp of `new Date()` shifted back six months. -/
def calculatePriority (sixMonthsAgo : ℤ) (item : Item) : ℚ :=
  let popularity : ℚ := item.popularityField.getD 0
  let voteAverage : ℚ := item.voteAverageField.getD 0
  let priority : ℚ :=
    if popularity > 100 then 0.9
    else if popularity > 50 then 0.85
    else if popularity > 20 then 0.75
    else if popularity > 10 then 0.65
    else 0.6
  let priority : ℚ :=
    if voteAverage ≥ 8.0 then min 1 (priority + 0.05) else priority
  let priority : ℚ :=
    match item.primaryDate with
    | some itemDate => if itemDate > sixMonthsAgo then min 1 (priority + 0.05) else priority
    | none => priority
  min 1 (max 0.5 priority)

/-- The seven standard sitemap change-frequency values (`SitemapUrl.changefreq`). -/
inductive Changefreq where
  | always | hourly | daily | weekly | monthly | yearly | never
  deriving DecidableEq

/-- Server-side `calculateChangefreq` (index.ts:157-173). -/
def calculateChangefreq (threeMonthsAgo : ℤ) (item : Item) : Changefreq :=
  if item.inProductionFlag then .weekly
  else
    match item.primaryDate with
    | some itemDate => if itemDate > threeMonthsAgo then .weekly else .monthly
    | none => .monthly

namespace SitemapGenerator

/-- Browser side, `sitemap.ts:218` / `sitemap.ts:236`:
`item.release_date || item.first_air_date`. On a movie row
`first_air_date` is absent (undefined, falsy); on a TV row
`release_date` is absent, so the disjunction picks `first_air_date`. -/
def browserPrimaryDate : Item → Option ℤ
  | .movie m => m.release_date
  | .tv t => t.first_air_date

/-- Browser side, `sitemap.ts:232`: `if (item.in_production)` —
undefined (falsy) on a movie row. -/
def browserInProduction : Item → Bool
  | .movie _ => false
  | .tv t => t.in_production

/-- Browser-side `SitemapGenerator.calculatePriority` (sitemap.ts:197-229). -/
def calculatePriority (sixMonthsAgo : ℤ) (item : Item) : ℚ :=
  let popularity : ℚ := item.popularityField.getD 0
  let voteAverage : ℚ := item.voteAverageField.getD 0
  let priority : ℚ :=
    if popularity > 100 then 0.9
    else if popularity > 50 then 0.85
    else if popularity > 20 then 0.75
    else if popularity > 10 then 0.65
    else 0.6
  let priority : ℚ :=
    if voteAverage ≥ 8.0 then min 1 (priority + 0.05) else priority
  let priority : ℚ :=
    match browserPrimaryDate item with
    | some itemDate => if itemDate > sixMonthsAgo then min 1 (priority + 0.05) else priority
    | none => priority
  min 1 (max 0.5 priority)

/-- Browser-side `SitemapGenerator.calculateChangefreq` (sitemap.ts:231-247). -/
def calculateChangefreq (threeMonthsAgo : ℤ) (item : Item) : Changefreq :=
  if browserInProduction item then .weekly
  else
    match browserPrimaryDate item with
    | some itemDate => if itemDate > threeMonthsAgo then .weekly else .monthly
    | none => .monthly

end SitemapGenerator

/-- The Priority Ranker written exactly as the specification describes it:
a popularity step base (>100→0.9, >50→0.85, >20→0.75, >10→0.65, else 0.6),
plus 0.05 when rating ≥ 8.0, plus 0.05 when the primary date is strictly
later than now minus six months, the result clamped to [0.5, 1.0]. -/
def prioritySpec (sixMonthsAgo : ℤ) (popularity rating : ℚ) (date : Option ℤ) : ℚ :=
  let base : ℚ :=
    if popularity > 100 then 0.9
    else if popularity > 50 then 0.85
    else if popularity > 20 then 0.75
    else if popularity > 10 then 0.65
    else 0.6
  let ratingBonus : ℚ := if rating ≥ 8.0 then 0.05 else 0
  let recencyBonus : ℚ :=
    match date with
    | some d => if d > sixMonthsAgo then (0.05 : ℚ) else 0
    | none => 0
  min 1 (max 0.5 (base + ratingBonus + recencyBonus))

/-! ## Alternate links, XML escaping and the URL serializer -/

/-- Server-side module constants (index.ts:10-13). -/
def SUPPORTED_LANGUAGES : List String :=
  ["en", "tr", "de", "fr", "es", "it", "pt", "ru", "ja", "ko", "zh"]

def BASE_URL : String := "https://www.tvshowup.com"

def TMDB_IMAGE_BASE : String := "https://image.tmdb.org/t/p/original"

def MAX_URLS_PER_SITEMAP : ℕ := 50000

/-- One `{hreflang, href}` alternate-link entry. -/
structure Alternate where
  hreflang : String
  href : String
  deriving DecidableEq

/-- The alternate-link construction common to both implementations
(index.ts:109-121 and sitemap.ts:54-66), abstracted over the module's
supported-language list and base URL: one entry per language, then an
`x-default` entry pointing at the English variant. -/
def generateAlternatesWith (langs : List String) (baseUrl path : String) : List Alternate :=
  (langs.map fun lang => ⟨lang, baseUrl ++ "/" ++ lang ++ path⟩) ++
    [⟨"x-default", baseUrl ++ "/en" ++ path⟩]

/-- Server-side `generateAlternates` (index.ts:109-121). -/
def generateAlternates (path : String) : List Alternate :=
  generateAlternatesWith SUPPORTED_LANGUAGES BASE_URL path

/-- The five characters the escape helper replaces. -/
def specialChars : List Char := ['&', '<', '>', '"', '\'']

/-- The per-character substitution performed by the five global
single-character replacements of `escapeXml` (index.ts:61-66). The
sequential `String.replace` chain is equivalent to this character map:
the ampersand pass runs first on the original text, and no later pass's
pattern character occurs in any replacement's output. -/
def escapeChar (c : Char) : List Char :=
  if c = '&' then ['&', 'a', 'm', 'p', ';']
  else if c = '<' then ['&', 'l', 't', ';']
  else if c = '>' then ['&', 'g', 't', ';']
  else if c = '"' then ['&', 'q', 'u', 'o', 't', ';']
  else if c = '\'' then ['&', 'a', 'p', 'o', 's', ';']
  else [c]

def escapeXmlList (s : List Char) : List Char := (s.map escapeChar).flatten

/-- Server-side `escapeXml` (index.ts:59-67). `if (!str) return ''` maps a
null/undefined argument — modelled as `none` — and the empty string to the
empty string; otherwise the five replacements apply. -/
def escapeXml (str : Option String) : String :=
  match str with
  | none => ""
  | some s => if s = "" then "" else ⟨escapeXmlList s.data⟩

/-- The five escape entities. -/
def entityList : List (List Char) :=
  [['&', 'a', 'm', 'p', ';'], ['&', 'l', 't', ';'], ['&', 'g', 't', ';'],
   ['&', 'q', 'u', 'o', 't', ';'], ['&', 'a', 'p', 'o', 's', ';']]

/-- `Number.prototype.toFixed(1)` as used at index.ts:82, modelled for the
non-negative priorities this subsystem produces: the value rounded to the
nearest tenth (ties upward, as ECMAScript picks the larger candidate),
printed with exactly one digit after the decimal point. -/
def toFixed1 (q : ℚ) : String :=
  let n : ℤ := (q * 10 + 1 / 2).floor
  toString (n / 10) ++ "." ++ toString (n % 10)

/-- The default ECMAScript number-to-string conversion interpolated at
sitemap.ts:32, modelled for the terminating decimal fractions this
subsystem produces: an integral value prints with no decimal point,
otherwise the shortest terminating decimal expansion is printed. -/
def jsNumToString (q : ℚ) : String :=
  if q.den = 1 then toString q.num
  else
    match (List.range 21).find? (fun k => (q * (10 : ℚ) ^ k).den = 1) with
    | some k =>
        let scaled : ℤ := (q * (10 : ℚ) ^ k).num
        let ip : ℤ := scaled / (10 : ℤ) ^ k
        let fp : ℤ := scaled % (10 : ℤ) ^ k
        let fs : String := toString fp
        let fs : String := ⟨List.replicate (k - fs.length) '0'⟩ ++ fs
        toString ip ++ "." ++ fs
    | none => toString q.num ++ "/" ++ toString q.den

def Changefreq.render : Changefreq → String
  | .always => "always"
  | .hourly => "hourly"
  | .daily => "daily"
  | .weekly => "weekly"
  | .monthly => "monthly"
  | .yearly => "yearly"
  | .never => "never"

/-- One `{loc, title?, caption?}` image entry of a `SitemapUrl`. -/
structure SitemapImage where
  loc : Option String
  title : Option String
  caption : Option String
  deriving DecidableEq

/-- The server-side `SitemapUrl` value object (index.ts:15-22). `loc` is
declared `string` in the source but may be fed a null/undefined value at
runtime, hence `Option`. -/
structure SitemapUrl where
  loc : Option String
  lastmod : Option String
  changefreq : Option Changefreq
  priority : Option ℚ
  alternates : Option (List Alternate)
  images : Option (List SitemapImage)
  deriving DecidableEq

/-- `<loc>` segment (index.ts:71). -/
def locLine (loc : Option String) : String :=
  "    <loc>" ++ escapeXml loc ++ "</loc>\n"

/-- Optional `<lastmod>` segment (index.ts:73-75); `if (url.lastmod)` is a
truthiness test, so an empty string also omits the element. -/
def lastmodLine (lastmod : Option String) : String :=
  match lastmod with
  | some lm => if lm = "" then "" else "    <lastmod>" ++ lm ++ "</lastmod>\n"
  | none => ""

/-- Optional `<changefreq>` segment (index.ts:77-79). -/
def changefreqLine (cf : Option Changefreq) : String :=
  match cf with
  | some c => "    <changefreq>" ++ c.render ++ "</changefreq>\n"
  | none => ""

/-- Optional `<priority>` segment (index.ts:81-83): present exactly when
the field is not undefined (`url.priority !== undefined`), formatted with
`toFixed(1)`. -/
def priorityLine (p : Option ℚ) : String :=
  match p with
  | some q => "    <priority>" ++ toFixed1 q ++ "</priority>\n"
  | none => ""

/-- One alternate-link element (index.ts:87): `hreflang` is interpolated
raw, `href` is escaped. -/
def alternateLine (alt : Alternate) : String :=
  "    <xhtml:link rel=\"alternate\" hreflang=\"" ++ alt.hreflang ++ "\" href=\"" ++
    escapeXml (some alt.href) ++ "\" />\n"

/-- Alternate-link segment (index.ts:85-89); the `length > 0` guard only
skips an empty `forEach`, which appends nothing either way. -/
def alternatesLines (alts : Option (List Alternate)) : String :=
  match alts with
  | some l => String.join (l.map alternateLine)
  | none => ""

/-- One `<image:image>` block (index.ts:93-101): `image:loc` always,
`image:title` / `image:caption` only when truthy, all three escaped. -/
def imageLines (img : SitemapImage) : String :=
  "    <image:image>\n" ++
    "      <image:loc>" ++ escapeXml img.loc ++ "</image:loc>\n" ++
    (match img.title with
     | some t => if t = "" then "" else "      <image:title>" ++ escapeXml (some t) ++ "</image:title>\n"
     | none => "") ++
    (match img.caption with
     | some t => if t = "" then "" else "      <image:caption>" ++ escapeXml (some t) ++ "</image:caption>\n"
     | none => "") ++
    "    </image:image>\n"

/-- Image segment (index.ts:91-103). -/
def imagesLines (imgs : Option (List SitemapImage)) : String :=
  match imgs with
  | some l => String.join (l.map imageLines)
  | none => ""

/-- Server-side `generateXmlUrl` (index.ts:69-107): the sequence of
conditional `xml +=` statements, one optional segment per field. -/
def generateXmlUrl (url : SitemapUrl) : String :=
  "  <url>\n" ++ locLine url.loc ++ lastmodLine url.lastmod ++
    changefreqLine url.changefreq ++ priorityLine url.priority ++
    alternatesLines url.alternates ++ imagesLines url.images ++ "  </url>\n"

/-- The browser-side `SitemapUrl` (sitemap.ts:4-10): same fields but no
images, and `loc` is always supplied by the class's own callers. -/
structure BrowserSitemapUrl where
  loc : String
  lastmod : Option String
  changefreq : Option Changefreq
  priority : Option ℚ
  alternates : Option (List Alternate)
  deriving DecidableEq

namespace SitemapGenerator

/-- Browser-side `SitemapGenerator.escapeXml` (sitemap.ts:45-52): the same
five replacements, with no falsy guard. -/
def escapeXml (s : String) : String := ⟨escapeXmlList s.data⟩

/-- Browser-side priority segment (sitemap.ts:31-33): the number is
interpolated directly (`${url.priority}`), with no `toFixed`. -/
def priorityLine (p : Option ℚ) : String :=
  match p with
  | some q => "    <priority>" ++ jsNumToString q ++ "</priority>\n"
  | none => ""

/-- Browser-side alternate-link element (sitemap.ts:37). -/
def alternateLine (alt : Alternate) : String :=
  "    <xhtml:link rel=\"alternate\" hreflang=\"" ++ alt.hreflang ++ "\" href=\"" ++
    escapeXml alt.href ++ "\" />\n"

def alternatesLines (alts : Option (List Alternate)) : String :=
  match alts with
  | some l => String.join (l.map alternateLine)
  | none => ""

/-- Browser-side `SitemapGenerator.generateXmlUrl` (sitemap.ts:19-43):
like the server's but without images, and with the unformatted priority
interpolation. The `lastmod` and `changefreq` segments are verbatim the
same code as the server's, so the shared segment functions are reused. -/
def generateXmlUrl (url : BrowserSitemapUrl) : String :=
  "  <url>\n" ++ "    <loc>" ++ escapeXml url.loc ++ "</loc>\n" ++
    lastmodLine url.lastmod ++ changefreqLine url.changefreq ++
    priorityLine url.priority ++ alternatesLines url.alternates ++ "  </url>\n"

end SitemapGenerator

/-- Entity-escaped character lists: every run is either a single
non-special character or one of the five escape entities. -/
inductive EntityEscaped : List Char → Prop
  | nil : EntityEscaped []
  | safe {c : Char} {rest : List Char} : c ∉ specialChars → EntityEscaped rest →
      EntityEscaped (c :: rest)
  | amp {rest : List Char} : EntityEscaped rest →
      EntityEscaped ('&' :: 'a' :: 'm' :: 'p' :: ';' :: rest)
  | lt {rest : List Char} : EntityEscaped rest →
      EntityEscaped ('&' :: 'l' :: 't' :: ';' :: rest)
  | gt {rest : List Char} : EntityEscaped rest →
      EntityEscaped ('&' :: 'g' :: 't' :: ';' :: rest)
  | quot {rest : List Char} : EntityEscaped rest →
      EntityEscaped ('&' :: 'q' :: 'u' :: 'o' :: 't' :: ';' :: rest)
  | apos {rest : List Char} : EntityEscaped rest →
      EntityEscaped ('&' :: 'a' :: 'p' :: 'o' :: 's' :: ';' :: rest)


/-! ## Sitemap assemblers -/

/-- The ambient clock and Date-rendering library of one generation
request: `sixMonthsAgo` / `threeMonthsAgo` are the timestamps the code
derives from `new Date()` with `setMonth`, `today` is
`new Date().toISOString().split('T')[0]`, and `isoDate` / `yearOf` render
a stored timestamp as an ISO date and as `getFullYear()` text. -/
structure Env where
  sixMonthsAgo : ℤ
  threeMonthsAgo : ℤ
  today : String
  isoDate : ℤ → String
  yearOf : ℤ → String

/-- A movie row as selected by the server-side query (index.ts:225). -/
structure MovieRow where
  id : ℤ
  slug : String
  title : Option String
  original_title : Option String
  popularity : Option ℚ
  vote_average : Option ℚ
  release_date : Option ℤ
  updated_at : Option ℤ
  poster_path : Option String
  backdrop_path : Option String
  deriving DecidableEq

/-- A TV-show row as selected by the server-side query (index.ts:289). -/
structure TVShowRow where
  id : ℤ
  slug : String
  name : Option String
  original_name : Option String
  popularity : Option ℚ
  vote_average : Option ℚ
  first_air_date : Option ℤ
  in_production : Bool
  updated_at : Option ℤ
  poster_path : Option String
  backdrop_path : Option String
  deriving DecidableEq

/-- A popular-person record from the external metadata API (index.ts:51-57). -/
structure Person where
  id : ℤ
  name : String
  profile_path : Option String
  popularity : Option ℚ
  known_for_department : Option String
  deriving DecidableEq

/-- The `{ data, error }` result object of a store query. -/
structure StoreResult (α : Type) where
  data : Option (List α)
  error : Option String

/-- JavaScript `a || b` on two possibly-null string values: the first
operand unless it is null/undefined or empty (falsy). -/
def jsOr (a b : Option String) : Option String :=
  match a with
  | some s => if s = "" then b else some s
  | none => b

/-- Template-literal rendering of a possibly-null string field:
JavaScript interpolates a null value as the word null. -/
def tmpl (s : Option String) : String := s.getD "null"

def XML_DECL : String := "<?xml version=\"1.0\" encoding=\"UTF-8\"?>\n"

/-- The `<urlset>` opening used by the categories without images. -/
def urlsetOpen : String :=
  "<urlset xmlns=\"http://www.sitemaps.org/schemas/sitemap/0.9\"\n" ++
    "        xmlns:xhtml=\"http://www.w3.org/1999/xhtml\">\n"

/-- The `<urlset>` opening with the image namespace (movies, TV shows,
people on the server side). -/
def urlsetOpenImages : String :=
  "<urlset xmlns=\"http://www.sitemaps.org/schemas/sitemap/0.9\"\n" ++
    "        xmlns:xhtml=\"http://www.w3.org/1999/xhtml\"\n" ++
    "        xmlns:image=\"http://www.google.com/schemas/sitemap-image/1.1\">\n"

def MovieRow.toItem (m : MovieRow) : Item :=
  .movie ⟨m.popularity, m.vote_average, m.release_date⟩

def TVShowRow.toItem (t : TVShowRow) : Item :=
  .tv ⟨t.popularity, t.vote_average, t.first_air_date, t.in_production⟩

/-- The up-to-two images of a movie entry (index.ts:243-257): poster and
backdrop when their paths are truthy, each titled `title || original_title`
and captioned from the title (and release year for the poster). -/
def movieImages (env : Env) (m : MovieRow) : List SitemapImage :=
  (match m.poster_path with
   | some p =>
      if p = "" then []
      else [⟨some (TMDB_IMAGE_BASE ++ p), jsOr m.title m.original_title,
        some (tmpl m.title ++ " (" ++
          (match m.release_date with
           | some d => env.yearOf d
           | none => "") ++ ") - Movie Poster")⟩]
   | none => []) ++
  (match m.backdrop_path with
   | some p =>
      if p = "" then []
      else [⟨some (TMDB_IMAGE_BASE ++ p), jsOr m.title m.original_title,
        some (tmpl m.title ++ " - Movie Backdrop")⟩]
   | none => [])

/-- The up-to-two images of a TV-show entry (index.ts:307-321). -/
def tvShowImages (env : Env) (t : TVShowRow) : List SitemapImage :=
  (match t.poster_path with
   | some p =>
      if p = "" then []
      else [⟨some (TMDB_IMAGE_BASE ++ p), jsOr t.name t.original_name,
        some (tmpl t.name ++ " (" ++
          (match t.first_air_date with
           | some d => env.yearOf d
           | none => "") ++ ") - TV Show Poster")⟩]
   | none => []) ++
  (match t.backdrop_path with
   | some p =>
      if p = "" then []
      else [⟨some (TMDB_IMAGE_BASE ++ p), jsOr t.name t.original_name,
        some (tmpl t.name ++ " - TV Show Backdrop")⟩]
   | none => [])

/-- The per-movie loop body (index.ts:238-269): one serialized `<url>` per
supported language, with lastmod from `updated_at` (today when null). -/
def movieUrlEntries (env : Env) (m : MovieRow) : String :=
  let path := "/movie/" ++ m.slug
  let priority := calculatePriority env.sixMonthsAgo m.toItem
  let changefreq := calculateChangefreq env.threeMonthsAgo m.toItem
  let images := movieImages env m
  String.join (SUPPORTED_LANGUAGES.map fun lang =>
    generateXmlUrl ⟨some (BASE_URL ++ "/" ++ lang ++ path),
      some (match m.updated_at with
        | some ts => env.isoDate ts
        | none => env.today),
      some changefreq, some priority, some (generateAlternates path),
      if images.length > 0 then some images else none⟩)

/-- The per-show loop body (index.ts:302-332). -/
def tvShowUrlEntries (env : Env) (t : TVShowRow) : String :=
  let path := "/tv_show/" ++ t.slug
  let priority := calculatePriority env.sixMonthsAgo t.toItem
  let changefreq := calculateChangefreq env.threeMonthsAgo t.toItem
  let images := tvShowImages env t
  String.join (SUPPORTED_LANGUAGES.map fun lang =>
    generateXmlUrl ⟨some (BASE_URL ++ "/" ++ lang ++ path),
      some (match t.updated_at with
        | some ts => env.isoDate ts
        | none => env.today),
      some changefreq, some priority, some (generateAlternates path),
      if images.length > 0 then some images else none⟩)

/-- Server-side `generateMoviesSitemap` (index.ts:216-278): a query error
is logged and thrown; the surrounding catch logs and re-throws it, so it
propagates (`Except.error`). A null or empty data list yields an empty
urlset. -/
def generateMoviesSitemap (env : Env) (res : StoreResult MovieRow) : Except String String :=
  match res.error with
  | some e => .error e
  | none =>
      let body :=
        match res.data with
        | some movies => String.join (movies.map (movieUrlEntries env))
        | none => ""
      .ok (XML_DECL ++ urlsetOpenImages ++ body ++ "</urlset>")

/-- Server-side `generateTVShowsSitemap` (index.ts:280-342). -/
def generateTVShowsSitemap (env : Env) (res : StoreResult TVShowRow) : Except String String :=
  match res.error with
  | some e => .error e
  | none =>
      let body :=
        match res.data with
        | some shows => String.join (shows.map (tvShowUrlEntries env))
        | none => ""
      .ok (XML_DECL ++ urlsetOpenImages ++ body ++ "</urlset>")

/-- Modelled semantics of the `.limit(MAX_URLS_PER_SITEMAP)` clause on the
movies / TV-shows store queries (index.ts:228, index.ts:292): the store
returns at most that many matching rows. -/
def limitQuery {α : Type} (rows : List α) : List α :=
  rows.take MAX_URLS_PER_SITEMAP

/-- The outcome of fetching one popular-people page (index.ts:354-363): a
fulfilled response with a parsed body whose `results` may be missing, a
response with `ok` false, or a rejected promise (network or JSON failure),
which throws. -/
inductive PageResult where
  | ok (results : Option (List Person))
  | httpError
  | thrown (e : String)

/-- The paginated people fetch loop (index.ts:353-371), instrumented to
also return the pages actually fetched. `fuel` counts the remaining loop
iterations — the source iterates `page = 1..10`. A non-ok response breaks
the loop (it is logged, not thrown); an empty or missing `results` breaks;
accumulating 2000 people breaks; a rejected fetch throws. -/
def personFetchLoop (api : ℕ → PageResult) :
    ℕ → ℕ → List Person → Except String (List ℕ × List Person)
  | 0, _, acc => .ok ([], acc)
  | fuel + 1, page, acc =>
    match api page with
    | .thrown e => .error e
    | .httpError => .ok ([page], acc)
    | .ok none => .ok ([page], acc)
    | .ok (some rs) =>
      if rs.length > 0 then
        let acc2 := acc ++ rs
        if 2000 ≤ acc2.length then .ok ([page], acc2)
        else
          match personFetchLoop api fuel (page + 1) acc2 with
          | .error e => .error e
          | .ok (ps, fin) => .ok (page :: ps, fin)
      else .ok ([page], acc)

/-- JavaScript `\w` (ASCII word character). -/
def isWordChar (c : Char) : Bool := c.isAlphanum || c = '_'

/-- The whitespace-collapsing replacement of `createSlugFromName`: each
maximal whitespace run becomes one hyphen. -/
def collapseWs : List Char → List Char
  | [] => []
  | c :: rest =>
    if c.isWhitespace then '-' :: collapseWs (rest.dropWhile Char.isWhitespace)
    else c :: collapseWs rest
termination_by l => l.length
decreasing_by
  · simpa using Nat.lt_succ_of_le (List.dropWhile_sublist _).length_le
  · simp

/-- The hyphen-collapsing replacement of `createSlugFromName`: each hyphen
run becomes one hyphen. -/
def collapseDashes : List Char → List Char
  | [] => []
  | c :: rest =>
    if c = '-' then '-' :: collapseDashes (rest.dropWhile (· = '-'))
    else c :: collapseDashes rest
termination_by l => l.length
decreasing_by
  · simpa using Nat.lt_succ_of_le (List.dropWhile_sublist _).length_le
  · simp

/-- `createSlugFromName` (index.ts:175-183), modelled for ASCII text:
lower-case the name, drop characters that are not word characters,
whitespace or hyphens, collapse whitespace runs then hyphen runs to single
hyphens, truncate to 50 characters and prefix `id-`. -/
def createSlugFromName (id : ℤ) (name : String) : String :=
  let cleaned : List Char :=
    (collapseDashes (collapseWs ((name.data.map Char.toLower).filter fun c =>
      isWordChar c || c.isWhitespace || c = '-'))).take 50
  toString id ++ "-" ++ (⟨cleaned⟩ : String)

/-- The single image of a person entry (index.ts:379-386): present when
`profile_path` is truthy, captioned `name - (department || 'Actor')`. -/
def personImages (p : Person) : List SitemapImage :=
  match p.profile_path with
  | some pp =>
      if pp = "" then []
      else [⟨some (TMDB_IMAGE_BASE ++ pp), some p.name,
        some (p.name ++ " - " ++
          (match p.known_for_department with
           | some d => if d = "" then "Actor" else d
           | none => "Actor"))⟩]
  | none => []

/-- The per-person loop body (index.ts:375-397): slug derived on the fly,
fixed changefreq `monthly` and priority 0.7, lastmod today. -/
def personUrlEntries (env : Env) (p : Person) : String :=
  let slug := createSlugFromName p.id p.name
  let path := "/person/" ++ slug
  let images := personImages p
  String.join (SUPPORTED_LANGUAGES.map fun lang =>
    generateXmlUrl ⟨some (BASE_URL ++ "/" ++ lang ++ path), some env.today,
      some .monthly, some 0.7, some (generateAlternates path),
      if images.length > 0 then some images else none⟩)

/-- Server-side `generatePersonSitemap` (index.ts:344-406): run the fetch
loop (a thrown fetch propagates through the catch, which logs and
re-throws), then emit the first 2000 accumulated people. -/
def generatePersonSitemap (env : Env) (api : ℕ → PageResult) : Except String String :=
  match personFetchLoop api 10 1 [] with
  | .error e => .error e
  | .ok (_, people) =>
      .ok (XML_DECL ++ urlsetOpenImages ++
        String.join ((people.take 2000).map (personUrlEntries env)) ++ "</urlset>")

/-- A browser-side movie row (sitemap.ts:107): no image paths selected. -/
structure BrowserMovieRow where
  id : ℤ
  slug : String
  title : Option String
  original_title : Option String
  popularity : Option ℚ
  vote_average : Option ℚ
  release_date : Option ℤ
  updated_at : Option ℤ
  deriving DecidableEq

/-- A browser-side TV-show row (sitemap.ts:145). -/
structure BrowserTVShowRow where
  id : ℤ
  slug : String
  name : Option String
  original_name : Option String
  popularity : Option ℚ
  vote_average : Option ℚ
  first_air_date : Option ℤ
  in_production : Bool
  updated_at : Option ℤ
  deriving DecidableEq

namespace SitemapGenerator

/-- Modelled from the spec: the supported-language list the browser module
imports from `src/lib/utils.ts`, a file not among the sources; the
specification lists en, tr, de, fr, es, it, pt, ja, ko, ar for this
implementation. -/
def SUPPORTED_LANGUAGES : List String :=
  ["en", "tr", "de", "fr", "es", "it", "pt", "ja", "ko", "ar"]

/-- Browser-side `generateAlternates` (sitemap.ts:54-66), at the class's
default base URL. -/
def generateAlternates (path : String) : List Alternate :=
  generateAlternatesWith SUPPORTED_LANGUAGES BASE_URL path

/-- The browser-side per-movie loop body (sitemap.ts:113-127). -/
def movieUrlEntries (env : Env) (m : BrowserMovieRow) : String :=
  let path := "/movie/" ++ m.slug
  let priority := calculatePriority env.sixMonthsAgo
    (.movie ⟨m.popularity, m.vote_average, m.release_date⟩)
  let changefreq := calculateChangefreq env.threeMonthsAgo
    (.movie ⟨m.popularity, m.vote_average, m.release_date⟩)
  String.join (SUPPORTED_LANGUAGES.map fun lang =>
    generateXmlUrl ⟨BASE_URL ++ "/" ++ lang ++ path,
      some (match m.updated_at with
        | some ts => env.isoDate ts
        | none => env.today),
      some changefreq, some priority, some (generateAlternates path)⟩)

/-- The browser-side per-show loop body (sitemap.ts:151-165). -/
def tvShowUrlEntries (env : Env) (t : BrowserTVShowRow) : String :=
  let path := "/tv_show/" ++ t.slug
  let priority := calculatePriority env.sixMonthsAgo
    (.tv ⟨t.popularity, t.vote_average, t.first_air_date, t.in_production⟩)
  let changefreq := calculateChangefreq env.threeMonthsAgo
    (.tv ⟨t.popularity, t.vote_average, t.first_air_date, t.in_production⟩)
  String.join (SUPPORTED_LANGUAGES.map fun lang =>
    generateXmlUrl ⟨BASE_URL ++ "/" ++ lang ++ path,
      some (match t.updated_at with
        | some ts => env.isoDate ts
        | none => env.today),
      some changefreq, some priority, some (generateAlternates path)⟩)

/-- Browser-side `generateMoviesSitemap` (sitemap.ts:99-135): only `data`
is destructured from the query result — the `error` field is never read —
and the surrounding catch merely logs, so the function always returns a
complete urlset string; a failed query yields an empty one. -/
def generateMoviesSitemap (env : Env) (res : StoreResult BrowserMovieRow) : String :=
  let body :=
    match res.data with
    | some movies => String.join (movies.map (movieUrlEntries env))
    | none => ""
  XML_DECL ++ urlsetOpen ++ body ++ "</urlset>"

/-- Browser-side `generateTVShowsSitemap` (sitemap.ts:137-173). -/
def generateTVShowsSitemap (env : Env) (res : StoreResult BrowserTVShowRow) : String :=
  let body :=
    match res.data with
    | some shows => String.join (shows.map (tvShowUrlEntries env))
    | none => ""
  XML_DECL ++ urlsetOpen ++ body ++ "</urlset>"

end SitemapGenerator

/-! ## Lemmas and claim theorems -/

lemma escapeXmlList_cons (c : Char) (s : List Char) :
    escapeXmlList (c :: s) = escapeChar c ++ escapeXmlList s := by
  simp [escapeXmlList]

lemma entityEscaped_escapeXmlList (s : List Char) : EntityEscaped (escapeXmlList s) := by
  induction s with
  | nil => exact .nil
  | cons c s ih =>
    rw [escapeXmlList_cons]
    by_cases h1 : c = '&'
    · subst h1
      have : escapeChar '&' = ['&', 'a', 'm', 'p', ';'] := by decide
      rw [this]
      exact .amp ih
    by_cases h2 : c = '<'
    · subst h2
      have : escapeChar '<' = ['&', 'l', 't', ';'] := by decide
      rw [this]
      exact .lt ih
    by_cases h3 : c = '>'
    · subst h3
      have : escapeChar '>' = ['&', 'g', 't', ';'] := by decide
      rw [this]
      exact .gt ih
    by_cases h4 : c = '"'
    · subst h4
      have : escapeChar '"' = ['&', 'q', 'u', 'o', 't', ';'] := by decide
      rw [this]
      exact .quot ih
    by_cases h5 : c = '\''
    · subst h5
      have : escapeChar '\'' = ['&', 'a', 'p', 'o', 's', ';'] := by decide
      rw [this]
      exact .apos ih
    · have : escapeChar c = [c] := by
        simp [escapeChar, h1, h2, h3, h4, h5]
      rw [this]
      exact .safe (by simp [specialChars, h1, h2, h3, h4, h5]) ih

lemma entityEscaped_no_raw {l : List Char} (h : EntityEscaped l) :
    ∀ c ∈ l, c ≠ '<' ∧ c ≠ '>' ∧ c ≠ '"' ∧ c ≠ '\'' := by
  induction h with
  | nil => simp
  | safe hc _ ih =>
    intro c hm
    rcases List.mem_cons.mp hm with rfl | hm
    · simp only [specialChars, List.mem_cons, List.mem_singleton] at hc
      push_neg at hc
      exact ⟨hc.2.1, hc.2.2.1, hc.2.2.2.1, by simpa using hc.2.2.2.2⟩
    · exact ih c hm
  | amp _ ih =>
    intro c hm
    simp only [List.mem_cons] at hm
    rcases hm with rfl | rfl | rfl | rfl | rfl | hm
    · decide
    · decide
    · decide
    · decide
    · decide
    · exact ih c hm
  | lt _ ih =>
    intro c hm
    simp only [List.mem_cons] at hm
    rcases hm with rfl | rfl | rfl | rfl | hm
    · decide
    · decide
    · decide
    · decide
    · exact ih c hm
  | gt _ ih =>
    intro c hm
    simp only [List.mem_cons] at hm
    rcases hm with rfl | rfl | rfl | rfl | hm
    · decide
    · decide
    · decide
    · decide
    · exact ih c hm
  | quot _ ih =>
    intro c hm
    simp only [List.mem_cons] at hm
    rcases hm with rfl | rfl | rfl | rfl | rfl | rfl | hm
    · decide
    · decide
    · decide
    · decide
    · decide
    · decide
    · exact ih c hm
  | apos _ ih =>
    intro c hm
    simp only [List.mem_cons] at hm
    rcases hm with rfl | rfl | rfl | rfl | rfl | rfl | hm
    · decide
    · decide
    · decide
    · decide
    · decide
    · decide
    · exact ih c hm

lemma entityEscaped_amp {l : List Char} (h : EntityEscaped l) :
    ∀ n, ((l.drop n).head? = some '&') → ∃ e ∈ entityList, ∃ t, l.drop n = e ++ t := by
  induction h with
  | nil =>
    intro n hn
    simp at hn
  | safe hc _ ih =>
    intro n hn
    match n with
    | 0 =>
      simp only [List.drop_zero, List.head?_cons] at hn
      rw [Option.some.injEq] at hn
      subst hn
      exact absurd (by decide : '&' ∈ specialChars) hc
    | n + 1 =>
      rw [List.drop_succ_cons] at hn ⊢
      exact ih n hn

  | amp _ ih =>
    intro n hn
    match n with
    | 0 => exact ⟨['&', 'a', 'm', 'p', ';'], by decide, _, rfl⟩
    | 1 =>
      simp only [List.drop_succ_cons, List.drop_zero, List.head?_cons,
        Option.some.injEq] at hn
      exact absurd hn (by decide)
    | 2 =>
      simp only [List.drop_succ_cons, List.drop_zero, List.head?_cons,
        Option.some.injEq] at hn
      exact absurd hn (by decide)
    | 3 =>
      simp only [List.drop_succ_cons, List.drop_zero, List.head?_cons,
        Option.some.injEq] at hn
      exact absurd hn (by decide)
    | 4 =>
      simp only [List.drop_succ_cons, List.drop_zero, List.head?_cons,
        Option.some.injEq] at hn
      exact absurd hn (by decide)
    | n + 5 =>
      simp only [List.drop_succ_cons] at hn ⊢
      exact ih n hn

  | lt _ ih =>
    intro n hn
    match n with
    | 0 => exact ⟨['&', 'l', 't', ';'], by decide, _, rfl⟩
    | 1 =>
      simp only [List.drop_succ_cons, List.drop_zero, List.head?_cons,
        Option.some.injEq] at hn
      exact absurd hn (by decide)
    | 2 =>
      simp only [List.drop_succ_cons, List.drop_zero, List.head?_cons,
        Option.some.injEq] at hn
      exact absurd hn (by decide)
    | 3 =>
      simp only [List.drop_succ_cons, List.drop_zero, List.head?_cons,
        Option.some.injEq] at hn
      exact absurd hn (by decide)
    | n + 4 =>
      simp only [List.drop_succ_cons] at hn ⊢
      exact ih n hn

  | gt _ ih =>
    intro n hn
    match n with
    | 0 => exact ⟨['&', 'g', 't', ';'], by decide, _, rfl⟩
    | 1 =>
      simp only [List.drop_succ_cons, List.drop_zero, List.head?_cons,
        Option.some.injEq] at hn
      exact absurd hn (by decide)
    | 2 =>
      simp only [List.drop_succ_cons, List.drop_zero, List.head?_cons,
        Option.some.injEq] at hn
      exact absurd hn (by decide)
    | 3 =>
      simp only [List.drop_succ_cons, List.drop_zero, List.head?_cons,
        Option.some.injEq] at hn
      exact absurd hn (by decide)
    | n + 4 =>
      simp only [List.drop_succ_cons] at hn ⊢
      exact ih n hn

  | quot _ ih =>
    intro n hn
    match n with
    | 0 => exact ⟨['&', 'q', 'u', 'o', 't', ';'], by decide, _, rfl⟩
    | 1 =>
      simp only [List.drop_succ_cons, List.drop_zero, List.head?_cons,
        Option.some.injEq] at hn
      exact absurd hn (by decide)
    | 2 =>
      simp only [List.drop_succ_cons, List.drop_zero, List.head?_cons,
        Option.some.injEq] at hn
      exact absurd hn (by decide)
    | 3 =>
      simp only [List.drop_succ_cons, List.drop_zero, List.head?_cons,
        Option.some.injEq] at hn
      exact absurd hn (by decide)
    | 4 =>
      simp only [List.drop_succ_cons, List.drop_zero, List.head?_cons,
        Option.some.injEq] at hn
      exact absurd hn (by decide)
    | 5 =>
      simp only [List.drop_succ_cons, List.drop_zero, List.head?_cons,
        Option.some.injEq] at hn
      exact absurd hn (by decide)
    | n + 6 =>
      simp only [List.drop_succ_cons] at hn ⊢
      exact ih n hn

  | apos _ ih =>
    intro n hn
    match n with
    | 0 => exact ⟨['&', 'a', 'p', 'o', 's', ';'], by decide, _, rfl⟩
    | 1 =>
      simp only [List.drop_succ_cons, List.drop_zero, List.head?_cons,
        Option.some.injEq] at hn
      exact absurd hn (by decide)
    | 2 =>
      simp only [List.drop_succ_cons, List.drop_zero, List.head?_cons,
        Option.some.injEq] at hn
      exact absurd hn (by decide)
    | 3 =>
      simp only [List.drop_succ_cons, List.drop_zero, List.head?_cons,
        Option.some.injEq] at hn
      exact absurd hn (by decide)
    | 4 =>
      simp only [List.drop_succ_cons, List.drop_zero, List.head?_cons,
        Option.some.injEq] at hn
      exact absurd hn (by decide)
    | 5 =>
      simp only [List.drop_succ_cons, List.drop_zero, List.head?_cons,
        Option.some.injEq] at hn
      exact absurd hn (by decide)
    | n + 6 =>
      simp only [List.drop_succ_cons] at hn ⊢
      exact ih n hn

lemma toString_int_digit (n : ℤ) :
    (toString (n % 10)).length = 1 ∧ (toString (n % 10)).data.all Char.isDigit = true := by
  have h0 : 0 ≤ n % 10 := Int.emod_nonneg n (by norm_num)
  have h1 : n % 10 < 10 := Int.emod_lt_of_pos n (by norm_num)
  set k := n % 10 with hk
  interval_cases k <;> exact ⟨rfl, rfl⟩

lemma rat_floor_eq (q : ℚ) : q.floor = ⌊q⌋ := by
  rw [Rat.floor_def', Rat.floor_def]

/-- `calculatePriority` is monotone in the popularity field once the rating
field and the primary date agree. -/
lemma calculatePriority_mono_aux (six : ℤ) (item₁ item₂ : Item)
    (hp : item₁.popularityField.getD 0 ≤ item₂.popularityField.getD 0)
    (hv : item₁.voteAverageField = item₂.voteAverageField)
    (hd : item₁.primaryDate = item₂.primaryDate) :
    calculatePriority six item₁ ≤ calculatePriority six item₂ := by
  simp only [calculatePriority, hv, hd]
  set p₁ := item₁.popularityField.getD 0 with hp₁
  set p₂ := item₂.popularityField.getD 0 with hp₂
  set r := item₂.voteAverageField.getD 0 with hr
  have hbase : (if p₁ > 100 then (0.9:ℚ) else if p₁ > 50 then 0.85 else if p₁ > 20 then 0.75
      else if p₁ > 10 then 0.65 else 0.6) ≤
      (if p₂ > 100 then (0.9:ℚ) else if p₂ > 50 then 0.85 else if p₂ > 20 then 0.75
      else if p₂ > 10 then 0.65 else 0.6) := by
    split_ifs <;> linarith
  set b₁ := (if p₁ > 100 then (0.9:ℚ) else if p₁ > 50 then 0.85 else if p₁ > 20 then 0.75
      else if p₁ > 10 then 0.65 else 0.6)
  set b₂ := (if p₂ > 100 then (0.9:ℚ) else if p₂ > 50 then 0.85 else if p₂ > 20 then 0.75
      else if p₂ > 10 then 0.65 else 0.6)
  refine min_le_min le_rfl (max_le_max le_rfl ?_)
  have h1 : (if r ≥ 8.0 then min 1 (b₁ + 0.05) else b₁) ≤
      (if r ≥ 8.0 then min 1 (b₂ + 0.05) else b₂) := by
    split_ifs with hvr
    · exact min_le_min le_rfl (by linarith)
    · exact hbase
  rcases hdd : item₂.primaryDate with _ | dd
  · exact h1
  · by_cases hgt : dd > six
    · simp only [hgt, if_true]
      exact min_le_min le_rfl (by linarith)
    · simp only [hgt, if_false]
      exact h1

/-- C2: for every input record (any popularity including 0, any rating
including 0, with or without a primary date) the Priority Ranker returns a
value in [0.5, 1.0], and holding rating and date (and record kind) fixed
the result is monotonically non-decreasing across the popularity steps
5 ≤ 15 ≤ 25 ≤ 60 ≤ 150, for movie records and TV records alike. -/
theorem claim_C2_priority_bounds_and_monotone
    (six : ℤ) (item : Item) (r : Option ℚ) (d : Option ℤ) (ip : Bool) :
    ((1:ℚ)/2 ≤ calculatePriority six item ∧ calculatePriority six item ≤ 1) ∧
    (calculatePriority six (.movie ⟨some 5, r, d⟩) ≤ calculatePriority six (.movie ⟨some 15, r, d⟩) ∧
     calculatePriority six (.movie ⟨some 15, r, d⟩) ≤ calculatePriority six (.movie ⟨some 25, r, d⟩) ∧
     calculatePriority six (.movie ⟨some 25, r, d⟩) ≤ calculatePriority six (.movie ⟨some 60, r, d⟩) ∧
     calculatePriority six (.movie ⟨some 60, r, d⟩) ≤ calculatePriority six (.movie ⟨some 150, r, d⟩)) ∧
    (calculatePriority six (.tv ⟨some 5, r, d, ip⟩) ≤ calculatePriority six (.tv ⟨some 15, r, d, ip⟩) ∧
     calculatePriority six (.tv ⟨some 15, r, d, ip⟩) ≤ calculatePriority six (.tv ⟨some 25, r, d, ip⟩) ∧
     calculatePriority six (.tv ⟨some 25, r, d, ip⟩) ≤ calculatePriority six (.tv ⟨some 60, r, d, ip⟩) ∧
     calculatePriority six (.tv ⟨some 60, r, d, ip⟩) ≤ calculatePriority six (.tv ⟨some 150, r, d, ip⟩)) := by
  refine ⟨⟨?_, ?_⟩, ⟨?_, ?_, ?_, ?_⟩, ⟨?_, ?_, ?_, ?_⟩⟩
  · simp only [calculatePriority]
    exact le_min (by norm_num) (le_trans (by norm_num) (le_max_left _ _))
  · simp only [calculatePriority]
    exact min_le_left _ _
  all_goals
    exact calculatePriority_mono_aux _ _ _ (by norm_num [Item.popularityField]) rfl rfl

set_option maxHeartbeats 2000000 in
/-- C3: the server-side Priority Ranker computes exactly the step-function /
bonus / clamp formula the specification states, and popularity 150 with
rating 8.5 and a primary date one month in the past (so strictly later than
the six-months-ago cutoff) yields exactly 1. -/
theorem claim_C3_priority_exact_formula (six : ℤ) (item : Item) :
    calculatePriority six item =
      prioritySpec six (item.popularityField.getD 0) (item.voteAverageField.getD 0)
        item.primaryDate ∧
    calculatePriority (-6) (.movie ⟨some 150, some 8.5, some (-1)⟩) = 1 := by
  constructor
  · simp only [calculatePriority, prioritySpec]
    set p := item.popularityField.getD 0 with hp
    set r := item.voteAverageField.getD 0 with hr
    obtain ⟨hB1, hB2⟩ : (0.6:ℚ) ≤ (if p > 100 then (0.9:ℚ) else if p > 50 then 0.85
        else if p > 20 then 0.75 else if p > 10 then 0.65 else 0.6) ∧
        (if p > 100 then (0.9:ℚ) else if p > 50 then 0.85
        else if p > 20 then 0.75 else if p > 10 then 0.65 else 0.6) ≤ 0.9 := by
      constructor <;> (split_ifs <;> norm_num)
    set B := (if p > 100 then (0.9:ℚ) else if p > 50 then 0.85
        else if p > 20 then 0.75 else if p > 10 then 0.65 else 0.6) with hB
    rcases item.primaryDate with _ | dd
    · by_cases hv : r ≥ 8.0 <;> simp only [hv, if_true, if_false] <;>
        simp only [min_def, max_def] <;> split_ifs <;> linarith
    · by_cases hv : r ≥ 8.0 <;> by_cases hgt : dd > six <;>
        simp only [hv, hgt, if_true, if_false] <;>
        simp only [min_def, max_def] <;> split_ifs <;> linarith
  · norm_num [calculatePriority, Item.popularityField, Item.voteAverageField, Item.primaryDate]

/-- C4: the Change-Frequency Classifier returns `weekly` whenever the
in-production flag is set (regardless of the date); otherwise it returns
`weekly` exactly when the primary date is strictly later than three months
ago, and `monthly` in every remaining case (the result is always one of
`weekly`/`monthly`). -/
theorem claim_C4_changefreq (three : ℤ) (item : Item) :
    (item.inProductionFlag = true → calculateChangefreq three item = .weekly) ∧
    (item.inProductionFlag = false →
      (calculateChangefreq three item = .weekly ↔
        ∃ d, item.primaryDate = some d ∧ three < d)) ∧
    (calculateChangefreq three item = .weekly ∨ calculateChangefreq three item = .monthly) := by
  refine ⟨fun h => by simp [calculateChangefreq, h], fun h => ?_, ?_⟩
  · simp only [calculateChangefreq, h, Bool.false_eq_true, if_false]
    rcases hd : item.primaryDate with _ | dd
    · simp
    · by_cases hgt : dd > three <;> simp [hgt]
  · simp only [calculateChangefreq]
    split_ifs
    · left; rfl
    · rcases item.primaryDate with _ | dd
      · right; rfl
      · by_cases hgt : dd > three
        · left; simp [hgt]
        · right; simp [hgt]

/-- Witness for C4: an in-production TV record whose first-air date lies
five years (60 months) in the past is still classified `weekly`. -/
theorem claim_C4_changefreq_witness :
    calculateChangefreq 0 (.tv ⟨some 1, some 1, some (-60), true⟩) = .weekly :=
  (claim_C4_changefreq 0 (.tv ⟨some 1, some 1, some (-60), true⟩)).1 rfl

/-- C9: on every input record the browser-side Priority Ranker and
Change-Frequency Classifier return exactly the same results as the
server-side copies. -/
theorem claim_C9_browser_equals_server (six three : ℤ) (item : Item) :
    SitemapGenerator.calculatePriority six item = calculatePriority six item ∧
    SitemapGenerator.calculateChangefreq three item = calculateChangefreq three item := by
  cases item <;> exact ⟨rfl, rfl⟩

/-- C5: for every language list, base URL and site-relative path, the
Alternate-Link Builder returns exactly `L + 1` entries — the `i`-th entry
carries the `i`-th language and the URL `baseUrl/{language}{path}`, the
final entry is tagged `x-default` and points at the English variant — and
every entry's URL ends in the same path suffix.  The server-side
`generateAlternates` is this builder applied to the module's language list
and base URL. -/
theorem claim_C5_alternates (langs : List String) (baseUrl path : String)
    (i : ℕ) (hi : i < langs.length) :
    (generateAlternatesWith langs baseUrl path).length = langs.length + 1 ∧
    (generateAlternatesWith langs baseUrl path)[i]? =
      some ⟨langs[i], baseUrl ++ "/" ++ langs[i] ++ path⟩ ∧
    (generateAlternatesWith langs baseUrl path)[langs.length]? =
      some ⟨"x-default", baseUrl ++ "/en" ++ path⟩ ∧
    (∀ a ∈ generateAlternatesWith langs baseUrl path, ∃ pre, a.href = pre ++ path) ∧
    generateAlternates path = generateAlternatesWith SUPPORTED_LANGUAGES BASE_URL path := by
  refine ⟨by simp [generateAlternatesWith], ?_, ?_, ?_, rfl⟩
  · rw [generateAlternatesWith, List.getElem?_append_left (by simpa using hi)]
    simp [hi]
  · rw [generateAlternatesWith, List.getElem?_append_right (by simp)]
    simp
  · intro a ha
    rw [generateAlternatesWith] at ha
    rcases List.mem_append.mp ha with hm | hm
    · obtain ⟨lang, _, rfl⟩ := List.mem_map.mp hm
      exact ⟨baseUrl ++ "/" ++ lang, by simp [String.append_assoc]⟩
    · rw [List.mem_singleton] at hm
      subst hm
      exact ⟨baseUrl ++ "/en", by simp [String.append_assoc]⟩

/-- Witness for C5 at the server-side language list, index 1 and the
path `/movie/42-title`. -/
theorem claim_C5_alternates_witness :
    1 < SUPPORTED_LANGUAGES.length ∧
    (generateAlternatesWith SUPPORTED_LANGUAGES BASE_URL "/movie/42-title")[1]? =
      some ⟨"tr", BASE_URL ++ "/" ++ "tr" ++ "/movie/42-title"⟩ :=
  ⟨by decide,
    (claim_C5_alternates SUPPORTED_LANGUAGES BASE_URL "/movie/42-title" 1 (by decide)).2.1⟩

/-- C6 (amended): the server-side serializer renders a present priority
with `toFixed(1)` — an integer part, a dot, and exactly one digit — and
emits no priority element when the field is absent; the browser-side
serializer instead interpolates the number with JavaScript's default
formatting, so the browser renders priority 1.0 as `1`, not `1.0`. -/
theorem claim_C6_priority_format (url : SitemapUrl) (q : ℚ) (hq : url.priority = some q) :
    priorityLine url.priority = "    <priority>" ++ toFixed1 q ++ "</priority>\n" ∧
    (∃ intPart fracPart : String, toFixed1 q = intPart ++ "." ++ fracPart ∧
      fracPart.length = 1 ∧ fracPart.data.all Char.isDigit = true) ∧
    priorityLine none = "" ∧
    (∀ u : SitemapUrl, generateXmlUrl u =
      "  <url>\n" ++ locLine u.loc ++ lastmodLine u.lastmod ++ changefreqLine u.changefreq ++
        priorityLine u.priority ++ alternatesLines u.alternates ++ imagesLines u.images ++
        "  </url>\n") ∧
    SitemapGenerator.priorityLine (some 1) = "    <priority>1</priority>\n" := by
  refine ⟨by rw [hq]; rfl, ?_, rfl, fun u => rfl, ?_⟩
  · exact ⟨toString ((q * 10 + 1 / 2).floor / 10), toString ((q * 10 + 1 / 2).floor % 10), rfl,
      (toString_int_digit _).1, (toString_int_digit _).2⟩
  · have hjs : jsNumToString 1 = "1" := by simp [jsNumToString]; decide
    simp only [SitemapGenerator.priorityLine, hjs]
    decide

/-- Witness for C6: a url whose priority is 0.85 renders through the
`toFixed(1)` segment, which here prints `0.9`. -/
theorem claim_C6_priority_format_witness :
    priorityLine (some (0.85 : ℚ)) = "    <priority>" ++ toFixed1 0.85 ++ "</priority>\n" ∧
    toFixed1 0.85 = "0.9" :=
  ⟨(claim_C6_priority_format ⟨none, none, none, some 0.85, none, none⟩ 0.85 rfl).1, by
    have h : ((0.85 : ℚ) * 10 + 1 / 2).floor = 9 := by
      rw [rat_floor_eq]; norm_num
    simp only [toFixed1, h]
    decide⟩

/-- Counterexample for C6 as stated: the browser-side serializer renders a
priority of 1.0 as `<priority>1</priority>`, not with one decimal digit
(`toFixed(1)` would print `1.0`). -/
theorem claim_C6_counterexample :
    SitemapGenerator.generateXmlUrl ⟨"x", none, none, some 1, none⟩ =
      "  <url>\n    <loc>x</loc>\n    <priority>1</priority>\n  </url>\n" ∧
    toFixed1 1 = "1.0" ∧
    SitemapGenerator.generateXmlUrl ⟨"x", none, none, some 1, none⟩ ≠
      "  <url>\n    <loc>x</loc>\n    <priority>1.0</priority>\n  </url>\n" := by
  have hjs : jsNumToString 1 = "1" := by simp [jsNumToString]; decide
  have hx : SitemapGenerator.generateXmlUrl ⟨"x", none, none, some 1, none⟩ =
      "  <url>\n    <loc>x</loc>\n    <priority>1</priority>\n  </url>\n" := by
    simp only [SitemapGenerator.generateXmlUrl, SitemapGenerator.priorityLine,
      SitemapGenerator.escapeXml, SitemapGenerator.alternatesLines, lastmodLine,
      changefreqLine, hjs]
    decide
  refine ⟨hx, ?_, ?_⟩
  · have h : ((1 : ℚ) * 10 + 1 / 2).floor = 10 := by
      rw [rat_floor_eq]; norm_num
    simp only [toFixed1, h]
    decide
  · rw [hx]
    decide

/-- C7: escaping replaces the five special characters everywhere in its
input: the escaped text contains no raw `<`, `>`, `"` or apostrophe, and
every ampersand in it starts one of the five entities; the serializer
passes the `loc` text, every alternate `href` and the image `loc`, title
and caption fields through this escape. -/
theorem claim_C7_xml_escaping (s : String) (u : SitemapUrl) (a : Alternate)
    (img : SitemapImage) :
    (∀ c ∈ escapeXmlList s.data, c ≠ '<' ∧ c ≠ '>' ∧ c ≠ '"' ∧ c ≠ '\'') ∧
    (∀ n, ((escapeXmlList s.data).drop n).head? = some '&' →
      ∃ e ∈ entityList, ∃ t, (escapeXmlList s.data).drop n = e ++ t) ∧
    locLine u.loc = "    <loc>" ++ escapeXml u.loc ++ "</loc>\n" ∧
    alternateLine a = "    <xhtml:link rel=\"alternate\" hreflang=\"" ++ a.hreflang ++
      "\" href=\"" ++ escapeXml (some a.href) ++ "\" />\n" ∧
    imageLines img =
      "    <image:image>\n" ++ "      <image:loc>" ++ escapeXml img.loc ++ "</image:loc>\n" ++
      (match img.title with
       | some t => if t = "" then ""
          else "      <image:title>" ++ escapeXml (some t) ++ "</image:title>\n"
       | none => "") ++
      (match img.caption with
       | some t => if t = "" then ""
          else "      <image:caption>" ++ escapeXml (some t) ++ "</image:caption>\n"
       | none => "") ++
      "    </image:image>\n" :=
  ⟨entityEscaped_no_raw (entityEscaped_escapeXmlList s.data),
    entityEscaped_amp (entityEscaped_escapeXmlList s.data), rfl, rfl, rfl⟩

/-- C10: the server-side serializer is a total function of its input; the
escape helper maps a null/undefined or empty string to the empty string,
so a `SitemapUrl` with no location serializes to an empty `<loc></loc>`
element — and an image with no location to an empty
`<image:loc></image:loc>` — rather than failing. -/
theorem claim_C10_serializer_total (u : SitemapUrl) :
    escapeXml none = "" ∧ escapeXml (some "") = "" ∧
    generateXmlUrl u =
      "  <url>\n" ++ locLine u.loc ++ lastmodLine u.lastmod ++ changefreqLine u.changefreq ++
        priorityLine u.priority ++ alternatesLines u.alternates ++ imagesLines u.images ++
        "  </url>\n" ∧
    generateXmlUrl ⟨none, none, none, none, none, none⟩ =
      "  <url>\n    <loc></loc>\n  </url>\n" ∧
    imageLines ⟨none, none, none⟩ =
      "    <image:image>\n      <image:loc></image:loc>\n    </image:image>\n" := by
  exact ⟨rfl, rfl, rfl, by decide, by decide⟩

lemma personFetchLoop_spec (api : ℕ → PageResult) :
    ∀ (fuel page : ℕ) (acc : List Person) (ps : List ℕ) (fin : List Person),
      personFetchLoop api fuel page acc = .ok (ps, fin) →
      ps.length ≤ fuel ∧
      (∀ q ∈ ps, page ≤ q ∧ q < page + fuel) ∧
      (∀ p, page ≤ p → p < page + fuel →
        (api p = .httpError ∨ api p = .ok none ∨ api p = .ok (some [])) →
        ∀ q ∈ ps, q ≤ p) := by
  intro fuel
  induction fuel with
  | zero =>
    intro page acc ps fin h
    simp only [personFetchLoop, Except.ok.injEq, Prod.mk.injEq] at h
    obtain ⟨h1, h2⟩ := h
    subst h1
    simp
  | succ fuel ih =>
    intro page acc ps fin h
    rw [personFetchLoop] at h
    cases hapi : api page with
    | thrown e =>
      rw [hapi] at h
      simp at h
    | httpError =>
      rw [hapi] at h
      simp only [Except.ok.injEq, Prod.mk.injEq] at h
      obtain ⟨h1, _⟩ := h
      subst h1
      refine ⟨by simp, ?_, ?_⟩
      · intro q hq
        simp only [List.mem_singleton] at hq
        omega
      · intro p hp1 hp2 _ q hq
        simp only [List.mem_singleton] at hq
        omega
    | ok results =>
      cases results with
      | none =>
        rw [hapi] at h
        simp only [Except.ok.injEq, Prod.mk.injEq] at h
        obtain ⟨h1, _⟩ := h
        subst h1
        refine ⟨by simp, ?_, ?_⟩
        · intro q hq
          simp only [List.mem_singleton] at hq
          omega
        · intro p hp1 hp2 _ q hq
          simp only [List.mem_singleton] at hq
          omega
      | some rs =>
        rw [hapi] at h
        simp only [Except.ok.injEq, Prod.mk.injEq] at h
        by_cases hlen : rs.length > 0
        · rw [if_pos hlen] at h
          by_cases hcap : 2000 ≤ (acc ++ rs).length
          · rw [if_pos hcap] at h
            simp only [Except.ok.injEq, Prod.mk.injEq] at h
            obtain ⟨h1, _⟩ := h
            subst h1
            refine ⟨by simp, ?_, ?_⟩
            · intro q hq
              simp only [List.mem_singleton] at hq
              omega
            · intro p hp1 hp2 _ q hq
              simp only [List.mem_singleton] at hq
              omega
          · rw [if_neg hcap] at h
            cases hrec : personFetchLoop api fuel (page + 1) (acc ++ rs) with
            | error e =>
              rw [hrec] at h
              simp at h
            | ok pr =>
              obtain ⟨ps', fin'⟩ := pr
              rw [hrec] at h
              simp only [Except.ok.injEq, Prod.mk.injEq] at h
              obtain ⟨h1, h2⟩ := h
              subst h1
              subst h2
              obtain ⟨ihl, ihb, ihs⟩ := ih (page + 1) (acc ++ rs) ps' fin' hrec
              refine ⟨by simpa using ihl, ?_, ?_⟩
              · intro q hq
                rcases List.mem_cons.mp hq with rfl | hq'
                · omega
                · have := ihb q hq'
                  omega
              · intro p hp1 hp2 hstop q hq
                have hpne : p ≠ page := by
                  intro hpe
                  subst hpe
                  rcases hstop with hs | hs | hs <;> rw [hapi] at hs
                  · exact PageResult.noConfusion hs
                  · simp at hs
                  · simp only [PageResult.ok.injEq, Option.some.injEq] at hs
                    subst hs
                    simp at hlen
                rcases List.mem_cons.mp hq with rfl | hq'
                · omega
                · exact ihs p (by omega) (by omega) hstop q hq'
        · rw [if_neg hlen] at h
          simp only [Except.ok.injEq, Prod.mk.injEq] at h
          obtain ⟨h1, _⟩ := h
          subst h1
          refine ⟨by simp, ?_, ?_⟩
          · intro q hq
            simp only [List.mem_singleton] at hq
            omega
          · intro p hp1 hp2 _ q hq
            simp only [List.mem_singleton] at hq
            omega

/-- C8: the movies and TV-shows store queries return at most
`MAX_URLS_PER_SITEMAP` (50,000) rows each; the people fetch loop visits at
most 10 pages, all within 1..10, stops at the first non-ok or empty page
(no later page is fetched), and the emitted person records are capped at
2,000 by the final slice. -/
theorem claim_C8_bounds (rows : List MovieRow) (trows : List TVShowRow)
    (api : ℕ → PageResult) (ps : List ℕ) (people : List Person)
    (h : personFetchLoop api 10 1 [] = .ok (ps, people)) :
    (limitQuery rows).length ≤ MAX_URLS_PER_SITEMAP ∧
    (limitQuery trows).length ≤ MAX_URLS_PER_SITEMAP ∧
    ps.length ≤ 10 ∧
    (∀ p ∈ ps, 1 ≤ p ∧ p ≤ 10) ∧
    (∀ p, 1 ≤ p → p ≤ 10 →
      (api p = .httpError ∨ api p = .ok none ∨ api p = .ok (some [])) →
      ∀ q ∈ ps, q ≤ p) ∧
    (people.take 2000).length ≤ 2000 := by
  obtain ⟨hl, hb, hs⟩ := personFetchLoop_spec api 10 1 [] ps people h
  refine ⟨?_, ?_, hl, ?_, ?_, ?_⟩
  · simp [limitQuery]
  · simp [limitQuery]
  · intro p hp
    have := hb p hp
    omega
  · intro p hp1 hp2 hstop q hq
    exact hs p hp1 (by omega) hstop q hq
  · simp

/-- Witness for C8: an api whose page 1 returns one person and whose page
2 returns a non-ok response makes the loop fetch exactly pages 1 and 2. -/
theorem claim_C8_bounds_witness :
    ([1, 2] : List ℕ).length ≤ 10 ∧ (∀ p ∈ ([1, 2] : List ℕ), 1 ≤ p ∧ p ≤ 10) := by
  have h := claim_C8_bounds ([] : List MovieRow) ([] : List TVShowRow)
    (fun p => if p = 1 then .ok (some [⟨1, "a", none, none, none⟩]) else .httpError)
    [1, 2] [⟨1, "a", none, none, none⟩] (by rfl)
  exact ⟨h.2.2.1, h.2.2.2.1⟩

/-- C1 (amended): the server-side movies and TV-shows assemblers log and
re-throw a store query error, which therefore propagates to the request
boundary, and the people assembler propagates a rejected fetch; but a
non-success HTTP response in the people assembler only stops the
pagination — the records gathered so far are still emitted as a complete
urlset — and the browser-side movies/TV-shows assemblers never read the
query error and swallow all failures, returning a complete (possibly
empty) urlset. -/
theorem claim_C1_error_propagation (env : Env) (resM : StoreResult MovieRow)
    (resT : StoreResult TVShowRow) (resBM : StoreResult BrowserMovieRow)
    (resBT : StoreResult BrowserTVShowRow) (api : ℕ → PageResult) (e : String) :
    (resM.error = some e → generateMoviesSitemap env resM = .error e) ∧
    (resT.error = some e → generateTVShowsSitemap env resT = .error e) ∧
    (api 1 = .thrown e → generatePersonSitemap env api = .error e) ∧
    (resBM.data = none →
      SitemapGenerator.generateMoviesSitemap env resBM = XML_DECL ++ urlsetOpen ++ "</urlset>") ∧
    (resBT.data = none →
      SitemapGenerator.generateTVShowsSitemap env resBT = XML_DECL ++ urlsetOpen ++ "</urlset>") ∧
    (api 1 = .httpError →
      generatePersonSitemap env api = .ok (XML_DECL ++ urlsetOpenImages ++ "</urlset>")) := by
  refine ⟨?_, ?_, ?_, ?_, ?_, ?_⟩
  · intro h
    simp [generateMoviesSitemap, h]
  · intro h
    simp [generateTVShowsSitemap, h]
  · intro h
    simp [generatePersonSitemap, personFetchLoop, h]
  · intro h
    simp [SitemapGenerator.generateMoviesSitemap, h]
  · intro h
    simp [SitemapGenerator.generateTVShowsSitemap, h]
  · intro h
    simp [generatePersonSitemap, personFetchLoop, h, String.join]

/-- Witness for C1: a movies query result with its error field set makes
the server-side assembler propagate exactly that error. -/
theorem claim_C1_error_propagation_witness :
    generateMoviesSitemap ⟨0, 0, "2026-10-12", fun _ => "", fun _ => ""⟩
      ⟨none, some "db down"⟩ = .error "db down" :=
  (claim_C1_error_propagation ⟨0, 0, "2026-10-12", fun _ => "", fun _ => ""⟩
    ⟨none, some "db down"⟩ ⟨none, some "db down"⟩ ⟨none, some "db down"⟩
    ⟨none, some "db down"⟩ (fun _ => .httpError) "db down").1 rfl

/-- Counterexample for C1 as stated: two fetch failures that are silently
swallowed rather than re-thrown — the browser-side movies assembler
returns a complete empty urlset although the query result carries an
error, and the server-side people assembler returns a successful empty
urlset although every page fetch has a non-success HTTP status. -/
theorem claim_C1_counterexample :
    SitemapGenerator.generateMoviesSitemap ⟨0, 0, "2026-10-12", fun _ => "", fun _ => ""⟩
        ⟨none, some "db down"⟩ =
      XML_DECL ++ urlsetOpen ++ "</urlset>" ∧
    generatePersonSitemap ⟨0, 0, "2026-10-12", fun _ => "", fun _ => ""⟩
        (fun _ => .httpError) = .ok (XML_DECL ++ urlsetOpenImages ++ "</urlset>") := by
  constructor
  · rfl
  · rfl

end TVShowUp
